import Mathlib

/-!
Shallow embedding of the deployment-orchestration GitHub action of
`jamie-at-bunny/mc-go-test`.

Two versions of the action exist in the repository:
* the current one at `.github/actions/create-app/src/action.ts`, and
* an older variant (an unnamed source file with identical structure).

Pure fragments of both are embedded below.  JavaScript strings are modelled
as `String` where the empty string stands for the falsy values (`""`,
`undefined`); `a || b` on strings becomes `strOr`; thrown exceptions become
`Except String`.
-/

namespace McGoTest

/-- JS `a || b` on strings: the empty string is falsy. -/
def strOr (a b : String) : String := if a = "" then b else a

/-- JS `s.includes(c)` for a single-character needle. -/
def strContains (s : String) (c : Char) : Bool := s.data.contains c

/-- JS `s.toLowerCase()` (over the ASCII range used by the action). -/
def strToLower (s : String) : String := ⟨s.data.map Char.toLower⟩

/-- JS `s.startsWith(pre)`. -/
def strStartsWith (s pre : String) : Bool := pre.data.isPrefixOf s.data

/-- Truthiness of an optional numeric port field (`c.port` in JS):
`undefined` and `0` are falsy. -/
def portTruthy : Option Nat → Bool
  | none => false
  | some p => p != 0

-- ── Container parsing (`parseContainers`) ───────────────────────────────

/-- One raw entry of the `containers` YAML list, before defaulting.
`""` models an absent string field, `none` an absent `port`,
and `build` carries the raw value compared by `c.build === true`
(`none` = absent). -/
structure RawContainer where
  name : String
  image : String
  tag : String
  port : Option Nat
  build : Option Bool
  context : String
  dockerfile : String
  env : List (String × String)
  deriving Repr, DecidableEq

/-- `ContainerDef` of action.ts, after defaulting. -/
structure ContainerDef where
  name : String
  image : String
  tag : String
  port : Option Nat
  build : Bool
  context : String
  dockerfile : String
  env : List (String × String)
  deriving Repr, DecidableEq

/-- Result of `yaml.load` on the `containers` input: either a list, or some
other value whose `typeof` string is carried for the error message. -/
inductive ContainersInput where
  | arr : List RawContainer → ContainersInput
  | other : String → ContainersInput
  deriving Repr, DecidableEq

/-- The `{ registry, sha }` defaults passed to `parseContainers`. -/
structure Defaults where
  registry : String
  sha : String
  deriving Repr, DecidableEq

/-- Body of the callback of `parsed.map((c, i) => ...)` in `parseContainers`
(current version): validation, image rewrite and field defaulting for one
container. -/
def resolveContainer (defaults : Defaults) (i : Nat) (c : RawContainer) :
    Except String ContainerDef :=
  if c.name = "" then
    .error ("Container at index " ++ toString i ++ " missing 'name'")
  else if c.image = "" then
    .error ("Container '" ++ c.name ++ "' missing 'image'")
  else
    let isBuild := c.build == some true
    let image :=
      if isBuild && !(strContains c.image '/') then
        defaults.registry ++ "/" ++ c.image
      else c.image
    .ok
      { name := c.name
        image := image
        tag := strOr c.tag (if isBuild then defaults.sha else "latest")
        port := match c.port with
                | none => none
                | some p => if p != 0 then some p else none
        build := isBuild
        context := strOr c.context "."
        dockerfile := strOr c.dockerfile "Dockerfile"
        env := c.env }

/-- `parsed.map(...)` with a throwing callback: JS `Array.prototype.map`
visits the elements in order and aborts at the first exception. -/
def resolveList (defaults : Defaults) : Nat → List RawContainer →
    Except String (List ContainerDef)
  | _, [] => .ok []
  | i, c :: rest =>
    match resolveContainer defaults i c with
    | .error e => .error e
    | .ok d =>
      match resolveList defaults (i + 1) rest with
      | .error e => .error e
      | .ok ds => .ok (d :: ds)

/-- `parseContainers` of the current action (action.ts lines 72-105),
after `yaml.load`. -/
def parseContainers (input : ContainersInput) (defaults : Defaults) :
    Except String (List ContainerDef) :=
  match input with
  | .arr cs => resolveList defaults 0 cs
  | .other t => .error ("containers input must be a YAML list. Got: " ++ t)

/-- Per-container body of `parseContainers` in the older variant
(unnamed source, lines 60-81): textually identical to the current one. -/
def resolveContainerOld (defaults : Defaults) (i : Nat) (c : RawContainer) :
    Except String ContainerDef :=
  if c.name = "" then
    .error ("Container at index " ++ toString i ++ " missing 'name'")
  else if c.image = "" then
    .error ("Container '" ++ c.name ++ "' missing 'image'")
  else
    let isBuild := c.build == some true
    let image :=
      if isBuild && !(strContains c.image '/') then
        defaults.registry ++ "/" ++ c.image
      else c.image
    .ok
      { name := c.name
        image := image
        tag := strOr c.tag (if isBuild then defaults.sha else "latest")
        port := match c.port with
                | none => none
                | some p => if p != 0 then some p else none
        build := isBuild
        context := strOr c.context "."
        dockerfile := strOr c.dockerfile "Dockerfile"
        env := c.env }

/-- Ordered, aborting map of the older variant. -/
def resolveListOld (defaults : Defaults) : Nat → List RawContainer →
    Except String (List ContainerDef)
  | _, [] => .ok []
  | i, c :: rest =>
    match resolveContainerOld defaults i c with
    | .error e => .error e
    | .ok d =>
      match resolveListOld defaults (i + 1) rest with
      | .error e => .error e
      | .ok ds => .ok (d :: ds)

/-- `parseContainers` of the older variant (unnamed source, lines 49-82). -/
def parseContainersOld (input : ContainersInput) (defaults : Defaults) :
    Except String (List ContainerDef) :=
  match input with
  | .arr cs => resolveListOld defaults 0 cs
  | .other t => .error ("containers input must be a YAML list. Got: " ++ t)

-- ── Registry provisioning (Step 2 of `run`, current version) ────────────

/-- One item of the platform's `GET /registries` response; only the fields
the private-registry lookup reads.  `displayName` is optional
(`r.displayName?.toLowerCase()`). -/
structure RegistryItem where
  id : Nat
  displayName : Option String
  deriving Repr, DecidableEq

/-- The find-predicate `r.displayName?.toLowerCase() === searchName`. -/
def matchesSearchName (searchName : String) (r : RegistryItem) : Bool :=
  match r.displayName with
  | some dn => strToLower dn == searchName
  | none => false

/-- Outcome of the private-registry block: the id stored in
`privateRegistryId` (as a string, via `String(id)`) and whether a
`POST /registries` create call was issued. -/
structure PrivateRegistryResult where
  privateRegistryId : Option String
  createCalled : Bool
  deriving Repr, DecidableEq

/-- The "Find or create a private registry for built images" block of `run`
(action.ts lines 226-256).  `hasBuildContainers` is
`buildContainers.length > 0`; `createdId` models the id the platform would
return for a create call. -/
def ensurePrivateRegistry (registryItems : List RegistryItem)
    (bunnyRegistryName registryUsername : String) (ensureBunnyRegistry : Bool)
    (hasBuildContainers : Bool) (createdId : Nat) : PrivateRegistryResult :=
  if hasBuildContainers && (bunnyRegistryName != "" || ensureBunnyRegistry) then
    let searchName := strToLower (strOr bunnyRegistryName registryUsername)
    match registryItems.find? (matchesSearchName searchName) with
    | some existing => ⟨some (toString existing.id), false⟩
    | none =>
      if ensureBunnyRegistry then ⟨some (toString createdId), true⟩
      else ⟨none, false⟩
  else ⟨none, false⟩

-- ── App payload (Step 3 of `run`, current version) ──────────────────────

/-- `parseImageParts` of action.ts: decompose a docker-style image reference
into `(imageNamespace, imageName)`. -/
def parseImageParts (fullImage : String) : String × String :=
  let parts := fullImage.splitOn "/"
  match parts with
  | [single] => ("library", single)
  | _ =>
    let first := parts.headD ""
    let hasRegistryHost := strContains first '.' || strContains first ':'
    let pathParts := if hasRegistryHost then parts.tail else parts
    let imageName := (pathParts.getLast?).getD ""
    let imageNamespace := strOr (String.intercalate "/" pathParts.dropLast) "library"
    (imageNamespace, imageName)

/-- Top-level runtime/region fields of the app-creation payload
(action.ts lines 262-274 and 328-334); `maxAllowedRegions` is `none` when
the field is not set. -/
structure AppPayload where
  name : String
  runtimeType : String
  requiredRegionIds : List String
  allowedRegionIds : List String
  maxAllowedRegions : Option Nat
  deriving Repr, DecidableEq

/-- Builds the runtime/region part of the app payload:
`deploymentType === "advanced" ? "Reserved" : "Shared"` and the
`deploymentType === "single" && region` region settings. -/
def mkAppPayload (appName deploymentType region : String) : AppPayload :=
  { name := appName
    runtimeType := if deploymentType = "advanced" then "Reserved" else "Shared"
    requiredRegionIds :=
      if deploymentType = "single" ∧ region ≠ "" then [region] else []
    allowedRegionIds :=
      if deploymentType = "single" ∧ region ≠ "" then [region] else []
    maxAllowedRegions :=
      if deploymentType = "single" ∧ region ≠ "" then some 1 else none }

/-- A synthesized endpoint payload: `displayName` plus either a `cdn` or an
`anycast` port-mapping object (or neither, when `endpoint_type` is another
token). -/
structure EndpointPayload where
  displayName : String
  cdnPorts : Option (List Nat)
  anycastPorts : Option (List Nat)
  deriving Repr, DecidableEq

/-- The `endpointPayload` built inside the template loop. -/
def mkEndpointPayload (endpointName endpointType : String) (port : Nat) :
    EndpointPayload :=
  if endpointType = "CDN" then ⟨endpointName, some [port], none⟩
  else if endpointType = "Anycast" then ⟨endpointName, none, some [port]⟩
  else ⟨endpointName, none, none⟩

/-- One element of `containerTemplates` in the app-creation payload.
`envVars = []` models an absent `environmentVariables` field (the code only
sets it when non-empty). -/
structure ContainerTemplate where
  name : String
  image : String
  imageName : String
  imageNamespace : String
  imageTag : String
  imageRegistryId : String
  envVars : List (String × String)
  endpoints : List EndpointPayload
  deriving Repr, DecidableEq

/-- `endpointContainer || containers.find((ct) => ct.port)?.name ||
containers[0].name` (the empty string models `undefined` name lookups; the
code only evaluates this with a non-empty container list). -/
def chooseExposeName (endpointContainer : String) (cs : List ContainerDef) :
    String :=
  strOr endpointContainer
    (strOr (((cs.find? (fun ct => portTruthy ct.port)).map ContainerDef.name).getD "")
      (((cs.head?).map ContainerDef.name).getD ""))

/-- Body of `containers.map((c) => ...)` building one container template
(action.ts lines 277-326). -/
def mkTemplate (createEndpoint : Bool)
    (endpointContainer endpointName endpointType : String)
    (privateRegistryId dockerHubRegistryId : Option String)
    (cs : List ContainerDef) (c : ContainerDef) : ContainerTemplate :=
  let parts := parseImageParts c.image
  { name := c.name
    image := c.image ++ ":" ++ c.tag
    imageName := parts.2
    imageNamespace := parts.1
    imageTag := c.tag
    imageRegistryId :=
      if c.build && privateRegistryId.isSome then privateRegistryId.getD ""
      else dockerHubRegistryId.getD ""
    envVars := c.env
    endpoints :=
      if portTruthy c.port && createEndpoint
          && (c.name == chooseExposeName endpointContainer cs) then
        [mkEndpointPayload endpointName endpointType (c.port.getD 0)]
      else [] }

/-- `containerTemplates` of the app-creation payload. -/
def buildContainerTemplates (createEndpoint : Bool)
    (endpointContainer endpointName endpointType : String)
    (privateRegistryId dockerHubRegistryId : Option String)
    (cs : List ContainerDef) : List ContainerTemplate :=
  cs.map (mkTemplate createEndpoint endpointContainer endpointName endpointType
    privateRegistryId dockerHubRegistryId cs)

-- ── Endpoint resolution (Step 5 of `run`, current version) ──────────────

/-- One endpoint object of the application-detail response;
`publicHost = ""` models an absent `publicHost` (`endpoints[0].publicHost
|| ""`). -/
structure RespEndpoint where
  publicHost : String
  deriving Repr, DecidableEq

/-- One container template of the application-detail response
(`ct.endpoints || []` — `[]` models an absent list). -/
structure RespTemplate where
  endpoints : List RespEndpoint
  deriving Repr, DecidableEq

/-- The application-detail response, reduced to the fields the URL
retrieval reads; `displayAddress = ""` models an absent
`appDetails?.displayEndpoint?.address`. -/
structure AppDetails where
  displayAddress : String
  containerTemplates : List RespTemplate
  deriving Repr, DecidableEq

/-- The fallback scan of action.ts lines 376-385: walk the container
templates in order; at the first one with a non-empty endpoint list take
`endpoints[0].publicHost || ""` and `break`. -/
def scanTemplates : List RespTemplate → String
  | [] => ""
  | ct :: rest =>
    match ct.endpoints with
    | [] => scanTemplates rest
    | e :: _ => e.publicHost

/-- `hostname` as computed by Step 5: the top-level convenience field if
truthy, else the template scan. -/
def resolveHostname (d : AppDetails) : String :=
  if d.displayAddress = "" then scanTemplates d.containerTemplates
  else d.displayAddress

/-- `appUrl` as computed by Step 5: empty for no hostname, pass-through for
a value starting with `"http"`, otherwise `https://` is prefixed. -/
def resolveUrl (d : AppDetails) : String :=
  let hostname := resolveHostname d
  if hostname = "" then ""
  else if strStartsWith hostname "http" then hostname
  else "https://" ++ hostname

/-- Modelled from the claim's words (C6), for comparison with
`scanTemplates`: "the first non-empty endpoint hostname found over the
container templates in order". -/
def claimFirstHostname (ts : List RespTemplate) : String :=
  ((((ts.map RespTemplate.endpoints).flatten).find?
      (fun e => e.publicHost != "")).map RespEndpoint.publicHost).getD ""

-- ── Deploy-and-poll loop (Step 4 of `run`) ──────────────────────────────

/-- Terminal-success test of the current action:
`if (status === "Active") break`. -/
def statusSuccessNew (s : String) : Bool := s == "Active"

/-- Terminal-success test of the older variant:
`/^(active|running)$/i.test(status)`. -/
def statusSuccessOld (s : String) : Bool :=
  strToLower s == "active" || strToLower s == "running"

/-- The claim's success pattern: a status matching, case-insensitively,
"active" or "running". -/
def claimStatusSuccess (s : String) : Bool :=
  strToLower s == "active" || strToLower s == "running"

/-- The `while (Date.now() < deadline)` poll loop.  `get k` is the status
string obtained by the `k`-th `GET /apps/{id}` call (or the error it
throws); time starts at `now` and each iteration ends with a 10-second
sleep.  Returns the number of fetches performed and the last status seen. -/
def pollLoop (succ : String → Bool) (get : Nat → Except String String)
    (d : Int) (now : Int) (k : Nat) (last : String) :
    Except String (Nat × String) :=
  if _h : now < d then
    match get k with
    | .error e => .error e
    | .ok s =>
      if succ s then .ok (k + 1, s)
      else pollLoop succ get d (now + 10000) (k + 1) s
  else .ok (k, last)
termination_by (d - now).toNat
decreasing_by simp_wf; omega

/-- Observable outcome of the wait step: number of status fetches, the last
status seen, and whether the not-yet-active warning was emitted.  A thrown
API error is an `Except.error` of `waitForDeployment` instead (the run is
marked failed only in that case). -/
structure WaitOutcome where
  fetches : Nat
  lastStatus : String
  warned : Bool
  deriving Repr, DecidableEq

/-- The `if (waitForDeploy)` block: `deadline = Date.now() + timeout * 1000`
with `timeout = parseInt(deployment_timeout)` — `none` models `NaN` (the
comparison `Date.now() < NaN` is false, so the loop body never runs).
After the loop, the warning fires iff the last status fails the success
test. -/
def waitForDeployment (succ : String → Bool)
    (get : Nat → Except String String) (start : Int) (timeout : Option Int) :
    Except String WaitOutcome :=
  match timeout with
  | none => .ok ⟨0, "", !succ ""⟩
  | some t =>
    match pollLoop succ get (start + t * 1000) start 0 "" with
    | .error e => .error e
    | .ok (k, last) => .ok ⟨k, last, !succ last⟩

-- ── Helper lemmas ───────────────────────────────────────────────────────

lemma resolveContainerOld_eq (d : Defaults) (i : Nat) (c : RawContainer) :
    resolveContainerOld d i c = resolveContainer d i c := rfl

lemma resolveListOld_eq (d : Defaults) :
    ∀ (cs : List RawContainer) (i : Nat),
      resolveListOld d i cs = resolveList d i cs := by
  intro cs
  induction cs with
  | nil => intro i; rfl
  | cons c rest ih =>
    intro i
    simp only [resolveListOld, resolveList, resolveContainerOld_eq, ih]

lemma resolveContainer_ok_of_valid (d : Defaults) (i : Nat) (c : RawContainer)
    (hn : c.name ≠ "") (hi : c.image ≠ "") :
    ∃ dc, resolveContainer d i c = .ok dc := by
  unfold resolveContainer
  rw [if_neg hn, if_neg hi]
  exact ⟨_, rfl⟩

lemma resolveList_ok_of_valid (d : Defaults) :
    ∀ (cs : List RawContainer) (i : Nat),
      (∀ c ∈ cs, c.name ≠ "" ∧ c.image ≠ "") →
      ∃ ds, resolveList d i cs = .ok ds ∧ ds.length = cs.length := by
  intro cs
  induction cs with
  | nil => intro i _; exact ⟨[], rfl, rfl⟩
  | cons c rest ih =>
    intro i h
    obtain ⟨hn, hi⟩ := h c (List.mem_cons_self c rest)
    obtain ⟨dc, hdc⟩ := resolveContainer_ok_of_valid d i c hn hi
    obtain ⟨ds, hds, hlen⟩ :=
      ih (i + 1) (fun c' hc' => h c' (List.mem_cons_of_mem _ hc'))
    refine ⟨dc :: ds, ?_, by simp [hlen]⟩
    simp only [resolveList, hdc, hds]

-- ── C9 ──────────────────────────────────────────────────────────────────

/-- C9: the container-list parsing functions of the two orchestrator
versions are extensionally equal — on every parsed `containers` input and
every `(registry, sha)` defaults pair they return the same container list
or fail with the same error. -/
theorem c9_parse_versions_agree (input : ContainersInput) (d : Defaults) :
    parseContainersOld input d = parseContainers input d := by
  cases input with
  | arr cs =>
    simp only [parseContainersOld, parseContainers, resolveListOld_eq]
  | other t => rfl

-- ── C2 ──────────────────────────────────────────────────────────────────

/-- C2, counterexample: a container entry with `build = true` and no
declared image does not resolve to `<defaultRegistry>/<appName>` — config
resolution fails with a missing-image error (with default registry `"reg"`
the claim predicts success with image `"reg/foo"`). -/
theorem c2_counterexample :
    parseContainers
      (.arr [{ name := "svc", image := "", tag := "", port := none,
               build := some true, context := "", dockerfile := "",
               env := [] }])
      ⟨"reg", "sha"⟩
      = .error "Container 'svc' missing 'image'" := rfl

/-- C2 (amended): for every container entry with no declared image —
`build = true` or not — config resolution fails with the index- or
name-qualified missing-image error; no `<defaultRegistry>/<appName>` image
is inherited (the parser does not even receive the app name). -/
theorem c2_missing_image_fails (d : Defaults) (c : RawContainer)
    (rest : List RawContainer) (hname : c.name ≠ "") (himg : c.image = "") :
    parseContainers (.arr (c :: rest)) d
      = .error ("Container '" ++ c.name ++ "' missing 'image'") := by
  have h1 : resolveContainer d 0 c
      = .error ("Container '" ++ c.name ++ "' missing 'image'") := by
    unfold resolveContainer
    rw [if_neg hname, if_pos himg]
  simp only [parseContainers, resolveList, h1]

/-- C2, witness for the amended theorem at a concrete input. -/
theorem c2_missing_image_fails_witness :
    parseContainers
      (.arr [{ name := "web", image := "", tag := "", port := none,
               build := some true, context := "", dockerfile := "",
               env := [] }])
      ⟨"ghcr.io/org", "abc"⟩
      = .error ("Container '" ++ "web" ++ "' missing 'image'") :=
  c2_missing_image_fails ⟨"ghcr.io/org", "abc"⟩ _ [] (by decide) rfl

-- ── C3 ──────────────────────────────────────────────────────────────────

/-- C3, counterexample: a container list in which two containers share the
name `"web"` is not rejected — config resolution succeeds and returns both
entries (no duplicate-name check exists). -/
theorem c3_counterexample :
    parseContainers
      (.arr [⟨"web", "img", "", none, some false, "", "", []⟩,
             ⟨"web", "img", "", none, some false, "", "", []⟩])
      ⟨"reg", "sha"⟩
      = .ok [⟨"web", "img", "latest", none, false, ".", "Dockerfile", []⟩,
             ⟨"web", "img", "latest", none, false, ".", "Dockerfile", []⟩] := rfl

/-- C3 (amended): config resolution does not reject duplicate container
names — every container list whose entries all carry a non-empty name and a
non-empty image resolves successfully (one output per input entry),
duplicated names included. -/
theorem c3_duplicates_accepted (d : Defaults) (cs : List RawContainer)
    (hvalid : ∀ c ∈ cs, c.name ≠ "" ∧ c.image ≠ "") :
    ∃ ds, parseContainers (.arr cs) d = .ok ds ∧ ds.length = cs.length := by
  simpa only [parseContainers] using resolveList_ok_of_valid d cs 0 hvalid

/-- C3, witness for the amended theorem at a duplicate-name input. -/
theorem c3_duplicates_accepted_witness :
    ∃ ds, parseContainers
        (.arr [⟨"web", "img", "", none, some false, "", "", []⟩,
               ⟨"web", "img", "", none, some false, "", "", []⟩])
        ⟨"reg", "sha"⟩ = .ok ds ∧ ds.length = 2 :=
  c3_duplicates_accepted ⟨"reg", "sha"⟩ _ (by decide)

-- ── C4 ──────────────────────────────────────────────────────────────────

/-- C4, counterexample: `"multi"` is a deployment-type token distinct from
`"single"`, yet the app payload's runtime is `"Shared"`, not `"Reserved"`. -/
theorem c4_counterexample :
    ("multi" : String) ≠ "single" ∧
    (mkAppPayload "app" "multi" "de").runtimeType = "Shared" :=
  ⟨by decide, rfl⟩

/-- C4 (amended): exactly the deployment-type token `"advanced"` maps to
the `"Reserved"` runtime; every other value — including `"single"`, other
non-default tokens and the empty string — maps to `"Shared"`. -/
theorem c4_runtime_advanced_only (appName dt region : String) :
    ((mkAppPayload appName dt region).runtimeType = "Reserved" ↔
      dt = "advanced") ∧
    (dt ≠ "advanced" → (mkAppPayload appName dt region).runtimeType
      = "Shared") := by
  unfold mkAppPayload
  constructor
  · by_cases h : dt = "advanced" <;> simp [h]
  · intro h; simp [h]

/-- C4, witness: the amended theorem applied at `"single"` and `""`. -/
theorem c4_runtime_advanced_only_witness :
    (mkAppPayload "app" "single" "de").runtimeType = "Shared" ∧
    (mkAppPayload "app" "" "").runtimeType = "Shared" :=
  ⟨(c4_runtime_advanced_only "app" "single" "de").2 (by decide),
   (c4_runtime_advanced_only "app" "" "").2 (by decide)⟩

-- ── C8 ──────────────────────────────────────────────────────────────────

/-- C8: for a container entry with `build = true` whose declared image has
no `/`, the resolved image is `<defaultRegistry>/<image>`; an image with a
`/`, or a container with `build = false`, keeps its image unchanged. -/
theorem c8_image_rewrite (d : Defaults) (i : Nat) (c : RawContainer)
    (hname : c.name ≠ "") (himage : c.image ≠ "") :
    (c.build = some true → strContains c.image '/' = false →
      ∃ out, resolveContainer d i c = .ok out ∧
        out.image = d.registry ++ "/" ++ c.image) ∧
    (strContains c.image '/' = true →
      ∃ out, resolveContainer d i c = .ok out ∧ out.image = c.image) ∧
    (c.build = some false →
      ∃ out, resolveContainer d i c = .ok out ∧ out.image = c.image) := by
  unfold resolveContainer
  rw [if_neg hname, if_neg himage]
  refine ⟨?_, ?_, ?_⟩
  · intro hb hs; exact ⟨_, rfl, by simp [hb, hs]⟩
  · intro hs; exact ⟨_, rfl, by simp [hs]⟩
  · intro hb; exact ⟨_, rfl, by simp [hb]⟩

/-- C8, witness: the rewrite at a slash-free built image, and pass-through
at a slash-qualified image and at a non-built image. -/
theorem c8_image_rewrite_witness :
    (∃ out, resolveContainer ⟨"reg", "sha"⟩ 0
        ⟨"web", "api", "", none, some true, "", "", []⟩ = .ok out ∧
      out.image = "reg" ++ "/" ++ "api") ∧
    (∃ out, resolveContainer ⟨"reg", "sha"⟩ 0
        ⟨"web", "ghcr.io/org/api", "", none, some true, "", "", []⟩
        = .ok out ∧ out.image = "ghcr.io/org/api") ∧
    (∃ out, resolveContainer ⟨"reg", "sha"⟩ 0
        ⟨"web", "redis", "", none, some false, "", "", []⟩ = .ok out ∧
      out.image = "redis") :=
  ⟨(c8_image_rewrite ⟨"reg", "sha"⟩ 0 _ (by decide) (by decide)).1
      rfl (by decide),
   (c8_image_rewrite ⟨"reg", "sha"⟩ 0 _ (by decide) (by decide)).2.1
      (by decide),
   (c8_image_rewrite ⟨"reg", "sha"⟩ 0 _ (by decide) (by decide)).2.2
      rfl⟩

-- ── C5 ──────────────────────────────────────────────────────────────────

/-- C5: when build containers are present and private-registry provisioning
is requested by name, a registry list already containing an entry whose
display name case-insensitively equals the requested name leads to no
create call, and the first such entry's id is returned. -/
theorem c5_existing_registry_reused (items : List RegistryItem)
    (name username : String) (ensure : Bool) (createdId : Nat)
    (hname : name ≠ "")
    (hfound : ∃ r ∈ items, matchesSearchName (strToLower name) r = true) :
    (ensurePrivateRegistry items name username ensure true
        createdId).createCalled = false ∧
    ∃ r ∈ items, matchesSearchName (strToLower name) r = true ∧
      (ensurePrivateRegistry items name username ensure true
          createdId).privateRegistryId = some (toString r.id) := by
  have hsome : (items.find? (matchesSearchName (strToLower name))).isSome :=
    List.find?_isSome.mpr (by simpa using hfound)
  obtain ⟨r, hr⟩ := Option.isSome_iff_exists.mp hsome
  have hres : ensurePrivateRegistry items name username ensure true createdId
      = ⟨some (toString r.id), false⟩ := by
    unfold ensurePrivateRegistry
    have hcond : (true && (name != "" || ensure)) = true := by
      simp [hname]
    rw [hcond]
    simp only [if_true]
    have hsearch : strToLower (strOr name username) = strToLower name := by
      rw [strOr, if_neg hname]
    rw [hsearch, hr]
  refine ⟨by rw [hres], r, List.mem_of_find?_eq_some hr,
    List.find?_some hr, by rw [hres]⟩

/-- C5, witness: a one-element registry list whose display name matches the
requested name up to case. -/
theorem c5_existing_registry_reused_witness :
    (ensurePrivateRegistry [⟨7, some "MyReg"⟩] "myreg" "" false true
        0).createCalled = false ∧
    ∃ r ∈ [(⟨7, some "MyReg"⟩ : RegistryItem)],
      matchesSearchName (strToLower "myreg") r = true ∧
      (ensurePrivateRegistry [⟨7, some "MyReg"⟩] "myreg" "" false true
          0).privateRegistryId = some (toString r.id) :=
  c5_existing_registry_reused [⟨7, some "MyReg"⟩] "myreg" "" false 0
    (by decide) ⟨⟨7, some "MyReg"⟩, by decide, by decide⟩

-- ── C7 ──────────────────────────────────────────────────────────────────

/-- C7: with endpoint creation enabled, non-empty unique container names
and any registry ids, at most one container template carries a synthesized
endpoint; a template carries one only if its container is the chosen
exposed container and itself declares a (non-zero) port; and the chosen
name is the explicitly named container, else the first container declaring
a port, else the first container overall. -/
theorem c7_single_endpoint (ec en et : String) (pid did : Option String)
    (cs : List ContainerDef)
    (hnames : ∀ c ∈ cs, c.name ≠ "")
    (huniq : (cs.map ContainerDef.name).Nodup) :
    ((buildContainerTemplates true ec en et pid did cs).filter
        (fun t => !t.endpoints.isEmpty)).length ≤ 1 ∧
    (∀ c ∈ cs, (mkTemplate true ec en et pid did cs c).endpoints ≠ [] →
      c.name = chooseExposeName ec cs ∧ portTruthy c.port = true) ∧
    (ec ≠ "" → chooseExposeName ec cs = ec) ∧
    (ec = "" → ∀ c, cs.find? (fun ct => portTruthy ct.port) = some c →
      chooseExposeName ec cs = c.name) ∧
    (ec = "" → cs.find? (fun ct => portTruthy ct.port) = none →
      ∀ c0, cs.head? = some c0 → chooseExposeName ec cs = c0.name) := by
  have hmk : ∀ c, (mkTemplate true ec en et pid did cs c).endpoints ≠ [] →
      c.name = chooseExposeName ec cs ∧ portTruthy c.port = true := by
    intro c h
    by_cases hA : (portTruthy c.port && true
        && (c.name == chooseExposeName ec cs)) = true
    · have := hA
      simp only [Bool.and_eq_true, beq_iff_eq] at this
      exact ⟨this.2, this.1.1⟩
    · exfalso
      apply h
      simp only [mkTemplate]
      rw [if_neg hA]
  refine ⟨?_, fun c _ h => hmk c h, ?_, ?_, ?_⟩
  · have h1 : ((buildContainerTemplates true ec en et pid did cs).filter
        (fun t => !t.endpoints.isEmpty)).length
        = cs.countP
            (fun c => !(mkTemplate true ec en et pid did cs c).endpoints.isEmpty) := by
      rw [buildContainerTemplates, ← List.countP_eq_length_filter,
        List.countP_map]
      rfl
    have h2 : cs.countP
        (fun c => !(mkTemplate true ec en et pid did cs c).endpoints.isEmpty)
        ≤ cs.countP (fun c => c.name == chooseExposeName ec cs) := by
      apply List.countP_mono_left
      intro c _ hc
      have hne : (mkTemplate true ec en et pid did cs c).endpoints ≠ [] := by
        intro hemp
        rw [hemp] at hc
        simp at hc
      simpa using (hmk c hne).1
    have h3 : cs.countP (fun c => c.name == chooseExposeName ec cs) ≤ 1 := by
      have h4 := List.nodup_iff_count_le_one.mp huniq (chooseExposeName ec cs)
      rw [List.count_eq_countP, List.countP_map] at h4
      simpa using h4
    omega
  · intro h
    rw [chooseExposeName, strOr, if_neg h]
  · intro h c hfind
    have hmem := List.mem_of_find?_eq_some hfind
    rw [chooseExposeName, h, hfind]
    simp [strOr, hnames c hmem]
  · intro h hfind c0 hc0
    rw [chooseExposeName, h, hfind, hc0]
    simp [strOr]

/-- C7, witness: two uniquely named containers, no explicit endpoint
container, the second declaring port 80. -/
theorem c7_single_endpoint_witness :
    ((buildContainerTemplates true "" "ep" "CDN" (some "1") none
        [⟨"db", "redis", "latest", none, false, ".", "Dockerfile", []⟩,
         ⟨"web", "reg/web", "sha", some 80, true, ".", "Dockerfile", []⟩]).filter
        (fun t => !t.endpoints.isEmpty)).length ≤ 1 ∧
    (∀ c ∈ [(⟨"db", "redis", "latest", none, false, ".", "Dockerfile", []⟩ : ContainerDef),
            ⟨"web", "reg/web", "sha", some 80, true, ".", "Dockerfile", []⟩],
      (mkTemplate true "" "ep" "CDN" (some "1") none
        [⟨"db", "redis", "latest", none, false, ".", "Dockerfile", []⟩,
         ⟨"web", "reg/web", "sha", some 80, true, ".", "Dockerfile", []⟩] c).endpoints ≠ [] →
      c.name = chooseExposeName ""
        [⟨"db", "redis", "latest", none, false, ".", "Dockerfile", []⟩,
         ⟨"web", "reg/web", "sha", some 80, true, ".", "Dockerfile", []⟩] ∧
      portTruthy c.port = true) ∧
    (("" : String) ≠ "" → chooseExposeName ""
        [⟨"db", "redis", "latest", none, false, ".", "Dockerfile", []⟩,
         ⟨"web", "reg/web", "sha", some 80, true, ".", "Dockerfile", []⟩] = "") ∧
    (("" : String) = "" → ∀ c,
      ([(⟨"db", "redis", "latest", none, false, ".", "Dockerfile", []⟩ : ContainerDef),
        ⟨"web", "reg/web", "sha", some 80, true, ".", "Dockerfile", []⟩].find?
          (fun ct => portTruthy ct.port)) = some c →
      chooseExposeName ""
        [⟨"db", "redis", "latest", none, false, ".", "Dockerfile", []⟩,
         ⟨"web", "reg/web", "sha", some 80, true, ".", "Dockerfile", []⟩] = c.name) ∧
    (("" : String) = "" →
      ([(⟨"db", "redis", "latest", none, false, ".", "Dockerfile", []⟩ : ContainerDef),
        ⟨"web", "reg/web", "sha", some 80, true, ".", "Dockerfile", []⟩].find?
          (fun ct => portTruthy ct.port)) = none →
      ∀ c0, ([(⟨"db", "redis", "latest", none, false, ".", "Dockerfile", []⟩ : ContainerDef),
              ⟨"web", "reg/web", "sha", some 80, true, ".", "Dockerfile", []⟩].head?) = some c0 →
      chooseExposeName ""
        [⟨"db", "redis", "latest", none, false, ".", "Dockerfile", []⟩,
         ⟨"web", "reg/web", "sha", some 80, true, ".", "Dockerfile", []⟩] = c0.name) :=
  c7_single_endpoint "" "ep" "CDN" (some "1") none
    [⟨"db", "redis", "latest", none, false, ".", "Dockerfile", []⟩,
     ⟨"web", "reg/web", "sha", some 80, true, ".", "Dockerfile", []⟩]
    (by decide) (by decide)

-- ── C6 ──────────────────────────────────────────────────────────────────

/-- C6, counterexample: the template scan does not return the first
non-empty endpoint hostname over the templates in order — it stops at the
first template carrying any endpoint.  Here that template's endpoint has an
empty hostname, so the resolver yields nothing although a later template
carries `"app.example.com"`. -/
theorem c6_counterexample :
    resolveHostname ⟨"", [⟨[⟨""⟩]⟩, ⟨[⟨"app.example.com"⟩]⟩]⟩ = "" ∧
    claimFirstHostname [⟨[⟨""⟩]⟩, ⟨[⟨"app.example.com"⟩]⟩]
      = "app.example.com" ∧
    resolveUrl ⟨"", [⟨[⟨""⟩]⟩, ⟨[⟨"app.example.com"⟩]⟩]⟩ = "" :=
  ⟨rfl, rfl, rfl⟩

/-- C6 (amended): with no top-level hostname, the resolver returns the
first endpoint-bearing template's first endpoint hostname — scheme-less
values get the `https://` prefix, already-schemed values pass through
unchanged; templates after the first endpoint-bearing one are never
consulted (the scan is not "first non-empty hostname"). -/
theorem c6_hostname_resolution :
    (∀ (h : String) (es : List RespEndpoint) (ts : List RespTemplate),
      h ≠ "" → strStartsWith h "http" = false →
      resolveUrl ⟨"", ⟨⟨h⟩ :: es⟩ :: ts⟩ = "https://" ++ h) ∧
    (∀ (h : String) (es : List RespEndpoint) (ts : List RespTemplate),
      h ≠ "" → strStartsWith h "http" = true →
      resolveUrl ⟨"", ⟨⟨h⟩ :: es⟩ :: ts⟩ = h) ∧
    (∀ ts : List RespTemplate,
      scanTemplates ts
        = (((ts.find? (fun ct => !ct.endpoints.isEmpty)).bind
            (fun ct => ct.endpoints.head?)).map RespEndpoint.publicHost).getD
            "") := by
  refine ⟨?_, ?_, ?_⟩
  · intro h es ts hne hsw
    simp [resolveUrl, resolveHostname, scanTemplates, hne, hsw]
  · intro h es ts hne hsw
    simp [resolveUrl, resolveHostname, scanTemplates, hne, hsw]
  · intro ts
    induction ts with
    | nil => rfl
    | cons ct rest ih =>
      cases hc : ct.endpoints with
      | nil =>
        rw [scanTemplates, hc, List.find?_cons_of_neg _ (by simp [hc])]
        exact ih
      | cons e es =>
        rw [scanTemplates, hc, List.find?_cons_of_pos _ (by simp [hc])]
        simp [hc]

/-- C6, witness: a scheme-less hostname on the first template gets the
secure-scheme prefix; a schemed one passes through. -/
theorem c6_hostname_resolution_witness :
    resolveUrl ⟨"", [⟨[⟨"app.example.com"⟩]⟩]⟩
      = "https://" ++ "app.example.com" ∧
    resolveUrl ⟨"", [⟨[⟨"http://app.example.com"⟩]⟩]⟩
      = "http://app.example.com" :=
  ⟨c6_hostname_resolution.1 "app.example.com" [] [] (by decide) (by decide),
   c6_hostname_resolution.2.1 "http://app.example.com" [] [] (by decide)
     (by decide)⟩

-- ── Poll-loop lemmas ────────────────────────────────────────────────────

lemma pollLoop_ge {succ : String → Bool} {get : Nat → Except String String}
    {d now : Int} {k : Nat} {last : String} (h : ¬ now < d) :
    pollLoop succ get d now k last = .ok (k, last) := by
  rw [pollLoop]
  simp [h]

lemma pollLoop_lt {succ : String → Bool} {get : Nat → Except String String}
    {d now : Int} {k : Nat} {last : String} (h : now < d) :
    pollLoop succ get d now k last =
      match get k with
      | .error e => .error e
      | .ok s =>
        if succ s then .ok (k + 1, s)
        else pollLoop succ get d (now + 10000) (k + 1) s := by
  rw [pollLoop]
  simp [h]

lemma pollLoop_lt_ok {succ : String → Bool} {st : Nat → String}
    {d now : Int} {k : Nat} {last : String} (h : now < d) :
    pollLoop succ (fun j => .ok (st j)) d now k last =
      if succ (st k) then .ok (k + 1, st k)
      else pollLoop succ (fun j => .ok (st j)) d (now + 10000) (k + 1)
        (st k) := by
  rw [pollLoop_lt h]

lemma waitForDeployment_none (succ : String → Bool)
    (get : Nat → Except String String) (start : Int) :
    waitForDeployment succ get start none = .ok ⟨0, "", !succ ""⟩ := rfl

lemma waitForDeployment_some (succ : String → Bool)
    (get : Nat → Except String String) (start t : Int) (k : Nat)
    (last : String)
    (h1 : pollLoop succ get (start + t * 1000) start 0 "" = .ok (k, last)) :
    waitForDeployment succ get start (some t)
      = .ok ⟨k, last, !succ last⟩ := by
  simp only [waitForDeployment]
  rw [h1]

/-- The loop (with every fetch succeeding) ends on a success status iff
some poll within the deadline window fetches a success status. -/
lemma pollLoop_success_iff (succ : String → Bool) (st : Nat → String)
    (d : Int) :
    ∀ (fuel : Nat) (now : Int) (k : Nat) (last : String),
      (d - now).toNat ≤ fuel → succ last = false →
      ((∃ n s, pollLoop succ (fun j => .ok (st j)) d now k last = .ok (n, s)
          ∧ succ s = true)
        ↔ ∃ m : Nat, now + 10000 * (m : Int) < d ∧ succ (st (k + m)) = true) := by
  intro fuel
  induction fuel with
  | zero =>
    intro now k last hf hlast
    have hge : ¬ now < d := by omega
    rw [pollLoop_ge hge]
    constructor
    · rintro ⟨n, s, hok, hs⟩
      cases hok
      rw [hlast] at hs
      exact absurd hs (by simp)
    · rintro ⟨m, hm, -⟩
      exfalso
      omega
  | succ f ih =>
    intro now k last hf hlast
    by_cases hlt : now < d
    · rw [pollLoop_lt_ok hlt]
      by_cases hs : succ (st k) = true
      · rw [if_pos hs]
        constructor
        · intro _
          exact ⟨0, by omega, by simpa using hs⟩
        · intro _
          exact ⟨k + 1, st k, rfl, hs⟩
      · have hs' : succ (st k) = false := by
          revert hs; cases succ (st k) <;> simp
        rw [if_neg hs, ih (now + 10000) (k + 1) (st k) (by omega) hs']
        constructor
        · rintro ⟨m, hm, hsucc⟩
          refine ⟨m + 1, by push_cast; omega, ?_⟩
          rw [show k + (m + 1) = k + 1 + m from by omega]
          exact hsucc
        · rintro ⟨m, hm, hsucc⟩
          cases m with
          | zero =>
            rw [Nat.add_zero] at hsucc
            rw [hsucc] at hs'
            cases hs'
          | succ m' =>
            refine ⟨m', by push_cast at hm ⊢; omega, ?_⟩
            rw [show k + 1 + m' = k + (m' + 1) from by omega]
            exact hsucc
    · rw [pollLoop_ge hlt]
      constructor
      · rintro ⟨n, s, hok, hs⟩
        cases hok
        rw [hlast] at hs
        exact absurd hs (by simp)
      · rintro ⟨m, hm, -⟩
        exfalso
        omega

/-- When no poll within the window fetches a success status, the loop runs
to the deadline: it ends without success, after enough 10-second steps to
reach the deadline. -/
lemma pollLoop_to_deadline (succ : String → Bool) (st : Nat → String)
    (d : Int) :
    ∀ (fuel : Nat) (now : Int) (k : Nat) (last : String),
      (d - now).toNat ≤ fuel → succ last = false →
      (∀ m : Nat, now + 10000 * (m : Int) < d → succ (st (k + m)) = false) →
      ∃ (j : Nat) (s : String),
        pollLoop succ (fun j' => .ok (st j')) d now k last = .ok (k + j, s)
          ∧ succ s = false ∧ d ≤ now + 10000 * (j : Int) := by
  intro fuel
  induction fuel with
  | zero =>
    intro now k last hf hlast _
    have hge : ¬ now < d := by omega
    exact ⟨0, last, by rw [Nat.add_zero]; exact pollLoop_ge hge, hlast,
      by omega⟩
  | succ f ih =>
    intro now k last hf hlast hnone
    by_cases hlt : now < d
    · have h0 : succ (st k) = false := by
        have := hnone 0 (by omega)
        simpa using this
      rw [pollLoop_lt_ok hlt, if_neg (by simp [h0])]
      obtain ⟨j, s, hok, hs, hd⟩ :=
        ih (now + 10000) (k + 1) (st k) (by omega) h0
          (fun m hm => by
            have := hnone (m + 1) (by push_cast at hm ⊢; omega)
            rw [show k + (m + 1) = k + 1 + m from by omega] at this
            exact this)
      refine ⟨j + 1, s, ?_, hs, by push_cast at hd ⊢; omega⟩
      rw [show k + (j + 1) = k + 1 + j from by omega]
      exact hok
    · exact ⟨0, last, by rw [Nat.add_zero]; exact pollLoop_ge hlt, hlast,
        by omega⟩

-- ── C1 ──────────────────────────────────────────────────────────────────

/-- C1, counterexample: the status `"running"` matches the claim's
case-insensitive success pattern on every poll, yet the current action's
poll loop (`status === "Active"`) does not stop with success: with a
20-second deadline it polls twice, reaches the deadline and emits the
not-yet-active warning. -/
theorem c1_counterexample :
    claimStatusSuccess "running" = true ∧
    waitForDeployment statusSuccessNew (fun _ => .ok "running") 0 (some 20)
      = .ok ⟨2, "running", true⟩ := by
  refine ⟨by decide, ?_⟩
  have h1 : pollLoop statusSuccessNew (fun _ => .ok "running")
      (0 + 20 * 1000) 0 0 "" = .ok (2, "running") := by
    rw [pollLoop_lt_ok (by decide), if_neg (by decide)]
    rw [pollLoop_lt_ok (by decide), if_neg (by decide)]
    rw [pollLoop_ge (by decide)]
  rw [waitForDeployment_some statusSuccessNew (fun _ => .ok "running") 0 20 2
    "running" h1]
  simp [statusSuccessNew]

/-- C1 (amended): the current action's poll loop reaches terminal success
exactly when some poll within the deadline window fetches the exact,
case-sensitive status `"Active"`; for any other status sequence it keeps
polling until the deadline elapses and ends without success.  The older
variant is the one that matches the claim's case-insensitive
`"active"`/`"running"` pattern. -/
theorem c1_poll_success_condition (st : Nat → String) (d now : Int) :
    ((∃ n s, pollLoop statusSuccessNew (fun j => .ok (st j)) d now 0 ""
        = .ok (n, s) ∧ statusSuccessNew s = true)
      ↔ ∃ m : Nat, now + 10000 * (m : Int) < d ∧ st m = "Active") ∧
    ((∀ m : Nat, now + 10000 * (m : Int) < d → st m ≠ "Active") →
      ∃ n s, pollLoop statusSuccessNew (fun j => .ok (st j)) d now 0 ""
        = .ok (n, s) ∧ statusSuccessNew s = false
          ∧ d ≤ now + 10000 * (n : Int)) ∧
    ((∃ n s, pollLoop statusSuccessOld (fun j => .ok (st j)) d now 0 ""
        = .ok (n, s) ∧ statusSuccessOld s = true)
      ↔ ∃ m : Nat, now + 10000 * (m : Int) < d
          ∧ claimStatusSuccess (st m) = true) := by
  refine ⟨?_, ?_, ?_⟩
  · rw [pollLoop_success_iff statusSuccessNew st d ((d - now).toNat) now 0 ""
      le_rfl (by decide)]
    constructor
    · rintro ⟨m, hm, hsucc⟩
      exact ⟨m, hm, by simpa [statusSuccessNew] using hsucc⟩
    · rintro ⟨m, hm, hsucc⟩
      exact ⟨m, hm, by simpa [statusSuccessNew] using hsucc⟩
  · intro hnone
    obtain ⟨j, s, hok, hs, hd⟩ :=
      pollLoop_to_deadline statusSuccessNew st d ((d - now).toNat) now 0 ""
        le_rfl (by decide)
        (fun m hm => by
          have := hnone m hm
          simpa [statusSuccessNew] using this)
    exact ⟨j, s, by simpa using hok, hs, hd⟩
  · rw [pollLoop_success_iff statusSuccessOld st d ((d - now).toNat) now 0 ""
      le_rfl (by decide)]
    constructor
    · rintro ⟨m, hm, hsucc⟩
      exact ⟨m, hm, by
        simpa [claimStatusSuccess, statusSuccessOld] using hsucc⟩
    · rintro ⟨m, hm, hsucc⟩
      exact ⟨m, hm, by
        simpa [claimStatusSuccess, statusSuccessOld] using hsucc⟩

/-- C1, witness for the amended theorem: with every status `"Deploying"`
and a 20-second window the current loop runs to the deadline without
success. -/
theorem c1_poll_success_condition_witness :
    ∃ n s, pollLoop statusSuccessNew
        (fun j => .ok ((fun _ => "Deploying") j)) 20000 0 0 ""
      = .ok (n, s) ∧ statusSuccessNew s = false
        ∧ (20000 : Int) ≤ 0 + 10000 * (n : Int) :=
  (c1_poll_success_condition (fun _ => "Deploying") 20000 0).2.1
    (fun m _ => by decide)

-- ── C10 ─────────────────────────────────────────────────────────────────

/-- C10: with waiting enabled and a `deployment_timeout` that parses to
`NaN` or to a value ≤ 0, the poll loop performs zero status fetches, the
not-yet-active warning fires immediately, and the run is not failed —
in both versions of the action. -/
theorem c10_nonpositive_timeout (get : Nat → Except String String)
    (start : Int) (timeout : Option Int)
    (h : timeout = none ∨ ∃ t, timeout = some t ∧ t ≤ 0) :
    waitForDeployment statusSuccessNew get start timeout
      = .ok ⟨0, "", true⟩ ∧
    waitForDeployment statusSuccessOld get start timeout
      = .ok ⟨0, "", true⟩ := by
  have hn : statusSuccessNew "" = false := by decide
  have ho : statusSuccessOld "" = false := by decide
  rcases h with h | ⟨t, ht, hle⟩
  · subst h
    rw [waitForDeployment_none, waitForDeployment_none, hn, ho]
    exact ⟨rfl, rfl⟩
  · subst ht
    have hge : ¬ start < start + t * 1000 := by omega
    rw [waitForDeployment_some statusSuccessNew get start t 0 ""
        (pollLoop_ge hge),
      waitForDeployment_some statusSuccessOld get start t 0 ""
        (pollLoop_ge hge), hn, ho]
    exact ⟨rfl, rfl⟩

/-- C10, witness: timeout 0 and a fetch function that would throw — no
fetch happens, the warning fires and the run succeeds. -/
theorem c10_nonpositive_timeout_witness :
    waitForDeployment statusSuccessNew (fun _ => .error "boom") 0 (some 0)
      = .ok ⟨0, "", true⟩ ∧
    waitForDeployment statusSuccessOld (fun _ => .error "boom") 0 (some 0)
      = .ok ⟨0, "", true⟩ :=
  c10_nonpositive_timeout (fun _ => .error "boom") 0 (some 0)
    (Or.inr ⟨0, rfl, le_refl 0⟩)

end McGoTest
